import Mathlib

/-!
Shallow embedding of the mcp-rally-server core: the relationship translator
and tool handlers (src/handlers/tools.ts), the workspace resolution and
credential validation logic of the Rally client (src/rally/client.ts), and
the client's workspace-reference caching discipline.
-/

namespace Rally

/-- The `RelationshipType` union from src/rally/client.ts. -/
inductive RelationshipType where
  | Predecessor
  | Successor
  | Child
  | Parent
  | Blocker
  | Blocked
  | Duplicate
  | Duplicated
deriving DecidableEq, Repr

/-- The string spelling of a relationship type, as it appears in tool inputs
and in tool result messages. -/
def RelationshipType.typeName : RelationshipType → String
  | .Predecessor => "Predecessor"
  | .Successor => "Successor"
  | .Child => "Child"
  | .Parent => "Parent"
  | .Blocker => "Blocker"
  | .Blocked => "Blocked"
  | .Duplicate => "Duplicate"
  | .Duplicated => "Duplicated"

/-- The eight admissible relationship type strings, as listed in the zod
enum of the createRelationship and removeRelationship tool schemas
(src/handlers/tools.ts). -/
def relationshipTypeStrings : List String :=
  ["Predecessor", "Successor", "Parent", "Child", "Blocker", "Blocked",
   "Duplicate", "Duplicated"]

/-- Parsing of the relationshipType tool input against the zod enum of the
tool schema: a member of the enum yields the corresponding value, anything
else is a validation failure. -/
def parseRelationshipType (s : String) : Option RelationshipType :=
  if s = "Predecessor" then some .Predecessor
  else if s = "Successor" then some .Successor
  else if s = "Parent" then some .Parent
  else if s = "Child" then some .Child
  else if s = "Blocker" then some .Blocker
  else if s = "Blocked" then some .Blocked
  else if s = "Duplicate" then some .Duplicate
  else if s = "Duplicated" then some .Duplicated
  else none

/-- The switch statement mapping a relationship type to the backend
collection name, identical in RallyClient.createRelationship and
RallyClient.removeRelationship (src/rally/client.ts). -/
def collectionName : RelationshipType → String
  | .Predecessor => "Predecessors"
  | .Successor => "Successors"
  | .Parent => "Parent"
  | .Child => "Children"
  | .Blocker => "Blockers"
  | .Blocked => "Blocked"
  | .Duplicate => "Duplicates"
  | .Duplicated => "Duplicated"

/-- The test `['Parent'].includes(collectionName)` deciding whether the
collection is a single-valued reference. -/
def isSingleReference (collection : String) : Bool :=
  ["Parent"].contains collection

/-- The artifact type used for all relationship mutations
(`let artifactType = 'HierarchicalRequirement'`). -/
def defaultArtifactType : String := "HierarchicalRequirement"

/-- The value placed on the mutated field of the update payload: a single
reference object `\x7b _ref: ... \x7d`, an explicit null, or a collection
operation `\x7b _type: tag, _ref: ... \x7d`. -/
inductive FieldValue where
  | singleRef (ref : String)
  | nullValue
  | collectionOp (tag : String) (ref : String)
deriving DecidableEq, Repr

/-- The body of the POST issued by createRelationship / removeRelationship:
one field of the artifact envelope is set to a FieldValue. -/
structure UpdatePayload where
  artifactType : String
  field : String
  value : FieldValue
deriving DecidableEq, Repr

/-- Payload construction of RallyClient.createRelationship: a single
reference for Parent, an add-tagged collection operation otherwise. -/
def createRelationshipPayload (targetId : String) (t : RelationshipType) :
    UpdatePayload :=
  let collection := collectionName t
  if isSingleReference collection then
    { artifactType := defaultArtifactType, field := collection
    , value := .singleRef ("/" ++ defaultArtifactType ++ "/" ++ targetId) }
  else
    { artifactType := defaultArtifactType, field := collection
    , value := .collectionOp "add" ("/" ++ defaultArtifactType ++ "/" ++ targetId) }

/-- Payload construction of RallyClient.removeRelationship: null for
Parent, a remove-tagged collection operation otherwise. -/
def removeRelationshipPayload (targetId : String) (t : RelationshipType) :
    UpdatePayload :=
  let collection := collectionName t
  if isSingleReference collection then
    { artifactType := defaultArtifactType, field := collection
    , value := .nullValue }
  else
    { artifactType := defaultArtifactType, field := collection
    , value := .collectionOp "remove" ("/" ++ defaultArtifactType ++ "/" ++ targetId) }

/-- Abstraction of the awaited RallyClient call made by a tool handler:
either it resolves, or it rejects with an error message. -/
inductive ClientOutcome where
  | success
  | failure (msg : String)
deriving DecidableEq, Repr

/-- Result of a relationship tool handler: the MCP content text, the
isError flag, and the client invocation performed (none when the handler
returned before calling the client, hence before any network traffic). -/
structure RelToolOutcome where
  isError : Bool
  message : String
  clientCall : Option (String × String × RelationshipType)
deriving DecidableEq, Repr

/-- The createRelationship tool handler (src/handlers/tools.ts): rejects
sourceId = targetId before invoking the client, otherwise forwards the
triple to RallyClient.createRelationship. -/
def createRelationshipTool (sourceId targetId : String)
    (t : RelationshipType) (client : ClientOutcome) : RelToolOutcome :=
  if sourceId = targetId then
    { isError := true
    , message := "Source and target cannot be the same artifact."
    , clientCall := none }
  else
    match client with
    | .success =>
        { isError := false
        , message := "Successfully created " ++ t.typeName ++
            " relationship from " ++ sourceId ++ " to " ++ targetId
        , clientCall := some (sourceId, targetId, t) }
    | .failure msg =>
        { isError := true
        , message := "Error creating relationship: " ++ msg
        , clientCall := some (sourceId, targetId, t) }

/-- The removeRelationship tool handler (src/handlers/tools.ts): forwards
the triple to RallyClient.removeRelationship directly, with no
self-relationship check. -/
def removeRelationshipTool (sourceId targetId : String)
    (t : RelationshipType) (client : ClientOutcome) : RelToolOutcome :=
  match client with
  | .success =>
      { isError := false
      , message := "Successfully removed " ++ t.typeName ++
          " relationship from " ++ sourceId ++ " to " ++ targetId
      , clientCall := some (sourceId, targetId, t) }
  | .failure msg =>
      { isError := true
      , message := "Error removing relationship: " ++ msg
      , clientCall := some (sourceId, targetId, t) }

/-- The error message produced by the zod enum errorMap of the relationship
tool schemas. -/
def relationshipTypeErrorMsg : String :=
  "Relationship type must be one of: Predecessor, Successor, Parent, Child, Blocker, Blocked, Duplicate, Duplicated"

/-- The createRelationship tool including the schema-validation stage: an
input string outside the zod enum is rejected before the handler runs. -/
def createRelationshipToolRaw (sourceId targetId typeStr : String)
    (client : ClientOutcome) : RelToolOutcome :=
  match parseRelationshipType typeStr with
  | none =>
      { isError := true, message := relationshipTypeErrorMsg, clientCall := none }
  | some t => createRelationshipTool sourceId targetId t client

/-- The removeRelationship tool including the schema-validation stage. -/
def removeRelationshipToolRaw (sourceId targetId typeStr : String)
    (client : ClientOutcome) : RelToolOutcome :=
  match parseRelationshipType typeStr with
  | none =>
      { isError := true, message := relationshipTypeErrorMsg, clientCall := none }
  | some t => removeRelationshipTool sourceId targetId t client

/-- Validated arguments of the updateStory tool (all optional fields may be
absent). -/
structure UpdateStoryArgs where
  id : String
  name : Option String
  description : Option String
  state : Option String
  estimate : Option Int
  priority : Option String
deriving DecidableEq, Repr

/-- The sparse update object built by the updateStory handler: a Rally
field key is present exactly when the corresponding argument is not
undefined. -/
structure UpdateData where
  Name : Option String
  Description : Option String
  ScheduleState : Option String
  PlanEstimate : Option Int
  Priority : Option String
deriving DecidableEq, Repr

/-- Construction of the update object: each `if (x !== undefined)
updateData.K = x` line of the handler. -/
def buildUpdateData (a : UpdateStoryArgs) : UpdateData :=
  { Name := a.name
  , Description := a.description
  , ScheduleState := a.state
  , PlanEstimate := a.estimate
  , Priority := a.priority }

/-- Number of keys present in the update object
(`Object.keys(updateData).length`). -/
def UpdateData.keyCount (d : UpdateData) : Nat :=
  (if d.Name.isSome then 1 else 0) +
  (if d.Description.isSome then 1 else 0) +
  (if d.ScheduleState.isSome then 1 else 0) +
  (if d.PlanEstimate.isSome then 1 else 0) +
  (if d.Priority.isSome then 1 else 0)

/-- Result of the updateStory tool handler: content text, isError flag, and
the client call performed (none means RallyClient.updateStory was never
invoked, hence zero network calls). -/
structure UpdateToolOutcome where
  isError : Bool
  message : String
  clientCall : Option (String × UpdateData)
deriving DecidableEq, Repr

/-- The updateStory tool handler (src/handlers/tools.ts): builds the sparse
update object, rejects when it has zero keys, otherwise forwards it to
RallyClient.updateStory. -/
def updateStoryTool (a : UpdateStoryArgs) (client : ClientOutcome) :
    UpdateToolOutcome :=
  let updateData := buildUpdateData a
  if updateData.keyCount = 0 then
    { isError := true
    , message := "No fields provided for update. Story was not modified."
    , clientCall := none }
  else
    match client with
    | .success =>
        { isError := false
        , message := "Successfully updated story " ++ a.id
        , clientCall := some (a.id, updateData) }
    | .failure msg =>
        { isError := true
        , message := "Error updating story: " ++ msg
        , clientCall := some (a.id, updateData) }

/-- Validated arguments of the createStory tool. -/
structure CreateStoryArgs where
  name : String
  description : Option String
  projectId : Option String
  state : Option String
  estimate : Option Int
  priority : Option String
deriving DecidableEq, Repr

/-- JavaScript truthiness of an optional string: undefined and the empty
string are falsy. -/
def jsTruthyStr : Option String → Bool
  | some s => s != ""
  | none => false

/-- JavaScript truthiness of an optional number: undefined and 0 are
falsy. -/
def jsTruthyInt : Option Int → Bool
  | some n => n != 0
  | none => false

/-- The story payload built by the createStory handler before it is passed
to RallyClient.createStory. -/
structure StoryData where
  Name : String
  Description : Option String
  Project : Option String
  ScheduleState : Option String
  PlanEstimate : Option Int
  Priority : Option String
deriving DecidableEq, Repr

/-- Construction of the createStory payload: Name and Description always,
then each `if (x) storyData.K = ...` line, which adds the field only when
the argument is truthy. -/
def buildStoryData (a : CreateStoryArgs) : StoryData :=
  { Name := a.name
  , Description := a.description
  , Project :=
      if jsTruthyStr a.projectId then a.projectId.map (fun p => "/project/" ++ p)
      else none
  , ScheduleState := if jsTruthyStr a.state then a.state else none
  , PlanEstimate := if jsTruthyInt a.estimate then a.estimate else none
  , Priority := if jsTruthyStr a.priority then a.priority else none }

/-- A workspace record as returned by the backend: ObjectID, Name and the
canonical reference string may each be absent. -/
structure Workspace where
  ObjectID : Option Nat
  Name : Option String
  ref : Option String
deriving DecidableEq, Repr

/-- A backend QueryResult: a Results list and an Errors list. -/
structure QueryResult where
  Results : List Workspace
  Errors : List String
deriving DecidableEq, Repr

/-- Failure of an axios request as classified in the outer catch of
validateCredentials: a response with an HTTP status, a request that
received no response, or any other rejection (including the explicit
30-second timeout races). -/
inductive ReqError where
  | withStatus (status : Nat) (msg : String)
  | noResponse (msg : String)
  | other (msg : String)
deriving DecidableEq, Repr

/-- A resolved axios response, reduced to the two facts validateCredentials
inspects: the HTTP status and whether response.data is truthy. -/
structure SubscriptionResponse where
  status : Nat
  hasData : Bool
deriving DecidableEq, Repr

/-- The backend behaviour observed by one run of validateCredentials: the
outcome of GET /subscription, of the exact workspace query, and of the
unfiltered workspace listing.  Inner-try failures only surface their
message, so the two workspace queries carry a plain message on error. -/
structure Env where
  subscription : Except ReqError SubscriptionResponse
  exactQuery : Except String QueryResult
  listQuery : Except String QueryResult

/-- The structured outcome of validateCredentials
(`\x7b valid: boolean; error?: string \x7d`). -/
structure ValidationResult where
  valid : Bool
  error : Option String
deriving DecidableEq, Repr

/-- The regex test `/^\d+$/.test(workspace)` performed once at client
construction. -/
def isNumericToken (s : String) : Bool :=
  !s.isEmpty && s.data.all Char.isDigit

/-- The query string sent to GET /workspace, chosen by workspaceIsNumeric. -/
def workspaceQuery (ws : String) : String :=
  if isNumericToken ws then "(ObjectID = " ++ ws ++ ")"
  else "(Name = \"" ++ ws ++ "\")"

/-- Whether a list of pattern characters matches at the head of the text. -/
def matchesAt : List Char → List Char → Bool
  | [], _ => true
  | _ :: _, [] => false
  | p :: ps, c :: cs => p == c && matchesAt ps cs

/-- Substring containment, the semantics of String.prototype.includes. -/
def containsSub (needle : List Char) : List Char → Bool
  | [] => needle.isEmpty
  | c :: rest => matchesAt needle (c :: rest) || containsSub needle rest

/-- Character-wise lowering of a string's characters, the semantics of
String.prototype.toLowerCase on the character list. -/
def lowerChars : List Char → List Char
  | [] => []
  | c :: cs => c.toLower :: lowerChars cs

/-- The maximal leading run of decimal digits. -/
def leadingDigits : List Char → List Char
  | [] => []
  | c :: cs => if c.isDigit then c :: leadingDigits cs else []

/-- Left-to-right scan for the regex `/\/workspace\/(\d+)/`: at the first
position where the literal "/workspace/" is followed by at least one
digit, return the captured digit run. -/
def findWorkspaceRefId : List Char → Option String
  | [] => none
  | c :: cs =>
      if matchesAt "/workspace/".data (c :: cs) then
        let ds := leadingDigits ((c :: cs).drop "/workspace/".length)
        if ds.isEmpty then findWorkspaceRefId cs else some (String.mk ds)
      else findWorkspaceRefId cs

/-- The capture of `_ref.match(/\/workspace\/(\d+)/)`. -/
def extractWorkspaceId (s : String) : Option String :=
  findWorkspaceRefId s.data

/-- Template rendering of an optional ObjectID: JavaScript prints undefined
as the string "undefined". -/
def objectIdStr : Option Nat → String
  | some n => toString n
  | none => "undefined"

/-- Template rendering of an optional Name. -/
def displayName : Option String → String
  | some s => s
  | none => "undefined"

/-- JavaScript truthiness of an optional numeric ObjectID. -/
def jsTruthyNat : Option Nat → Bool
  | some n => n != 0
  | none => false

/-- The workspaceId computed in the first-available-workspace fallback:
the direct ObjectID when truthy, else the capture extracted from _ref,
else the original (falsy) ObjectID value; none renders as "undefined". -/
def fallbackWorkspaceId (w : Workspace) : Option String :=
  if jsTruthyNat w.ObjectID then w.ObjectID.map toString
  else
    match w.ref with
    | some r =>
        match extractWorkspaceId r with
        | some d => some d
        | none => w.ObjectID.map toString
    | none => w.ObjectID.map toString

/-- Rendering of the final workspaceId variable into the reference and
advisory strings. -/
def renderId : Option String → String
  | some s => s
  | none => "undefined"

/-- The substring-match predicate of the fallback search:
`w.Name && w.Name.toLowerCase().includes(workspace.toLowerCase())`. -/
def nameMatches (token : String) (w : Workspace) : Bool :=
  match w.Name with
  | some n => n != "" && containsSub (lowerChars token.data) (lowerChars n.data)
  | none => false

/-- Classification performed by the outer catch of validateCredentials. -/
def classifySubscriptionError : ReqError → ValidationResult
  | .withStatus s msg =>
      if s = 401 then
        { valid := false, error := some "Authentication failed - invalid API key" }
      else
        { valid := false
        , error := some ("Request failed with status " ++ toString s ++ ": " ++ msg) }
  | .noResponse _ =>
      { valid := false
      , error := some "No response from Rally API server - network issue or service unavailable" }
  | .other msg =>
      { valid := false
      , error := some ("Failed to validate credentials: " ++ msg) }

/-- RallyClient.validateCredentials (src/rally/client.ts), as a function of
the configured workspace token and the backend behaviour.  Returns the
structured outcome together with the workspaceRef assigned during the run
(none when no assignment happened). -/
def validateCredentials (workspace : String) (env : Env) :
    ValidationResult × Option String :=
  match env.subscription with
  | .error e => (classifySubscriptionError e, none)
  | .ok resp =>
      if resp.status == 200 && resp.hasData then
        match env.exactQuery with
        | .error msg =>
            ({ valid := false, error := some ("Error checking workspace: " ++ msg) }, none)
        | .ok qr =>
            match qr.Results with
            | w :: _ =>
                ({ valid := true, error := none }
                , some ("/workspace/" ++ objectIdStr w.ObjectID))
            | [] =>
                match env.listQuery with
                | .error msg =>
                    ({ valid := false
                     , error := some ("Error checking workspace: " ++ msg) }, none)
                | .ok lqr =>
                    match lqr.Results with
                    | first :: _ =>
                        let matching :=
                          if !isNumericToken workspace && workspace != "" then
                            lqr.Results.find? (nameMatches workspace)
                          else none
                        match matching with
                        | some m =>
                            ({ valid := true, error := none }
                            , some ("/workspace/" ++ objectIdStr m.ObjectID))
                        | none =>
                            let wid := fallbackWorkspaceId first
                            ({ valid := true
                             , error := some ("Specified workspace \"" ++ workspace ++
                                 "\" not found, using \"" ++ displayName first.Name ++
                                 "\" (" ++ renderId wid ++ ") instead") }
                            , some ("/workspace/" ++ renderId wid))
                    | [] =>
                        if !lqr.Errors.isEmpty then
                          ({ valid := false
                           , error := some ("Workspace listing failed: " ++
                               String.intercalate "; " lqr.Errors) }, none)
                        else
                          ({ valid := false
                           , error := some "No accessible workspaces found with this API key" }, none)
      else
        ({ valid := false
         , error := some ("Unexpected response from Rally API: " ++ toString resp.status) }, none)

/-- The mutable state of a RallyClient instance relevant to resolution:
the cached workspaceRef, absent until a resolution run assigns it. -/
structure ClientState where
  workspaceRef : Option String
deriving DecidableEq, Repr

/-- The story and relationship operations of RallyClient. -/
inductive Operation where
  | getStories
  | getStory
  | createStory
  | updateStory
  | deleteStory
  | getRelationships
  | createRelationship
  | removeRelationship
deriving DecidableEq, Repr

/-- The guard `if (!this.workspaceRef) \x7b await this.validateCredentials();
\x7d` shared by every story and relationship operation.  Returns the new
state and the number of validateCredentials calls made. -/
def ensureWorkspace (ws : String) (env : Env) (st : ClientState) :
    ClientState × Nat :=
  match st.workspaceRef with
  | some _ => (st, 0)
  | none =>
      match (validateCredentials ws env).2 with
      | some r => ({ workspaceRef := some r }, 1)
      | none => (st, 1)

/-- The resolution behaviour of one operation: each of the eight methods
begins with the same ensureWorkspace guard. -/
def runOperation (ws : String) (env : Env) (op : Operation)
    (st : ClientState) : ClientState × Nat :=
  match op with
  | .getStories => ensureWorkspace ws env st
  | .getStory => ensureWorkspace ws env st
  | .createStory => ensureWorkspace ws env st
  | .updateStory => ensureWorkspace ws env st
  | .deleteStory => ensureWorkspace ws env st
  | .getRelationships => ensureWorkspace ws env st
  | .createRelationship => ensureWorkspace ws env st
  | .removeRelationship => ensureWorkspace ws env st

/-- A sequence of operations on one client instance, accumulating the
number of validateCredentials calls. -/
def runOps (ws : String) (env : Env) :
    List Operation → ClientState → ClientState × Nat
  | [], st => (st, 0)
  | op :: ops, st =>
      let s1 := runOperation ws env op st
      let s2 := runOps ws env ops s1.1
      (s2.1, s1.2 + s2.2)

/-- A relationship collection object of a raw backend artifact payload:
its _tagsNameArray may be absent. -/
structure RefCollection where
  tagsNameArray : Option (List String)
deriving DecidableEq, Repr

/-- The raw artifact payload inspected by the getRelationships tool
handler: each relationship field may be absent; Parent, when present,
carries an optional _refObjectName.  Duplicated is part of the raw payload
but the handler never reads it. -/
structure RawArtifact where
  Predecessors : Option RefCollection
  Successors : Option RefCollection
  Children : Option RefCollection
  Parent : Option (Option String)
  Blocked : Option RefCollection
  Blocker : Option RefCollection
  Duplicates : Option RefCollection
  Duplicated : Option RefCollection
deriving DecidableEq, Repr

/-- The snapshot built by the getRelationships handler: a key is present
exactly when the corresponding raw field was; there is no Duplicated key. -/
structure RelationshipSnapshot where
  Predecessors : Option (List String)
  Successors : Option (List String)
  Children : Option (List String)
  Parent : Option (Option String)
  Blocked : Option (List String)
  Blocker : Option (List String)
  Duplicates : Option (List String)
deriving DecidableEq, Repr

/-- Extraction of one multi-valued field:
`artifact.K._tagsNameArray || []` when the field is present, omission
otherwise. -/
def readCollection : Option RefCollection → Option (List String)
  | none => none
  | some f => some (f.tagsNameArray.getD [])

/-- The snapshot construction of the getRelationships tool handler
(src/handlers/tools.ts): seven conditional extractions, Parent taking
_refObjectName and every other field its _tagsNameArray or an empty
list. -/
def buildSnapshot (a : RawArtifact) : RelationshipSnapshot :=
  { Predecessors := readCollection a.Predecessors
  , Successors := readCollection a.Successors
  , Children := readCollection a.Children
  , Parent := a.Parent
  , Blocked := readCollection a.Blocked
  , Blocker := readCollection a.Blocker
  , Duplicates := readCollection a.Duplicates }

/-- Fixture: a workspace whose name contains the token "alpha" as a
case-insensitive substring. -/
def wsAlphabet : Workspace :=
  { ObjectID := some 7, Name := some "Alphabet", ref := some "/workspace/7" }

/-- Fixture: workspace Alpha with ID 1, first in the spec scenario list. -/
def wsAlpha : Workspace :=
  { ObjectID := some 1, Name := some "Alpha", ref := some "/workspace/1" }

/-- Fixture: workspace Beta with ID 2, second in the spec scenario list. -/
def wsBeta : Workspace :=
  { ObjectID := some 2, Name := some "Beta", ref := some "/workspace/2" }

/-- Fixture: a workspace with no direct ObjectID and a reference string the
workspace-ID pattern does not match. -/
def wsNoId : Workspace :=
  { ObjectID := none, Name := some "Alpha", ref := some "/nope/1" }

/-- Fixture: a successful GET /subscription response. -/
def okSubscription : Except ReqError SubscriptionResponse :=
  .ok { status := 200, hasData := true }

/-- Fixture: a query result with no results and no errors. -/
def emptyResult : QueryResult := { Results := [], Errors := [] }

/-- Fixture: backend where the exact query is empty and the listing holds
one workspace matched only by substring. -/
def envSubstring : Env :=
  { subscription := okSubscription
  , exactQuery := .ok emptyResult
  , listQuery := .ok { Results := [wsAlphabet], Errors := [] } }

/-- Fixture: backend of the spec scenario — exact query empty, listing is
[Alpha, Beta], and the token "NoSuchTeam" matches neither. -/
def envFallback : Env :=
  { subscription := okSubscription
  , exactQuery := .ok emptyResult
  , listQuery := .ok { Results := [wsAlpha, wsBeta], Errors := [] } }

/-- Fixture: backend whose only listed workspace lacks both a direct ID and
an extractable reference ID. -/
def envNoId : Env :=
  { subscription := okSubscription
  , exactQuery := .ok emptyResult
  , listQuery := .ok { Results := [wsNoId], Errors := [] } }

/-- Fixture: backend where the exact workspace query succeeds. -/
def envExact : Env :=
  { subscription := okSubscription
  , exactQuery := .ok { Results := [wsAlpha], Errors := [] }
  , listQuery := .ok emptyResult }

/-- Fixture: backend with no accessible workspaces at all. -/
def envEmpty : Env :=
  { subscription := okSubscription
  , exactQuery := .ok emptyResult
  , listQuery := .ok emptyResult }

/-- Fixture: backend whose subscription request is rejected with HTTP 401. -/
def env401 : Env :=
  { subscription := .error (.withStatus 401 "Request failed with status code 401")
  , exactQuery := .ok emptyResult
  , listQuery := .ok emptyResult }

/-- Claim C1: createRelationship and removeRelationship map each
relationship kind to exactly one backend collection name (Predecessor to
Predecessors, Successor to Successors, Parent to Parent, Child to
Children, Blocker to Blockers, Blocked to Blocked, Duplicate to
Duplicates, Duplicated to Duplicated) and treat exactly the kind Parent as
single-valued: for Parent, add sets the field to a reference object
pointing at the target and remove sets it to null; for every other kind,
add and remove emit a collection-mutation instruction tagged add or remove
carrying the target reference. -/
theorem C1_relationship_kind_mapping (t : RelationshipType) (targetId : String) :
    (collectionName .Predecessor = "Predecessors" ∧
     collectionName .Successor = "Successors" ∧
     collectionName .Parent = "Parent" ∧
     collectionName .Child = "Children" ∧
     collectionName .Blocker = "Blockers" ∧
     collectionName .Blocked = "Blocked" ∧
     collectionName .Duplicate = "Duplicates" ∧
     collectionName .Duplicated = "Duplicated")
  ∧ (isSingleReference (collectionName t) = true ↔ t = .Parent)
  ∧ createRelationshipPayload targetId .Parent =
      { artifactType := defaultArtifactType, field := "Parent"
      , value := .singleRef ("/" ++ defaultArtifactType ++ "/" ++ targetId) }
  ∧ removeRelationshipPayload targetId .Parent =
      { artifactType := defaultArtifactType, field := "Parent"
      , value := .nullValue }
  ∧ (t ≠ .Parent →
      createRelationshipPayload targetId t =
        { artifactType := defaultArtifactType, field := collectionName t
        , value := .collectionOp "add" ("/" ++ defaultArtifactType ++ "/" ++ targetId) } ∧
      removeRelationshipPayload targetId t =
        { artifactType := defaultArtifactType, field := collectionName t
        , value := .collectionOp "remove" ("/" ++ defaultArtifactType ++ "/" ++ targetId) }) := by
  refine ⟨⟨rfl, rfl, rfl, rfl, rfl, rfl, rfl, rfl⟩, ?_, rfl, rfl, ?_⟩
  · cases t <;> decide
  · intro h
    cases t with
    | Parent => exact absurd rfl h
    | Predecessor => exact ⟨rfl, rfl⟩
    | Successor => exact ⟨rfl, rfl⟩
    | Child => exact ⟨rfl, rfl⟩
    | Blocker => exact ⟨rfl, rfl⟩
    | Blocked => exact ⟨rfl, rfl⟩
    | Duplicate => exact ⟨rfl, rfl⟩
    | Duplicated => exact ⟨rfl, rfl⟩

/-- Concrete instantiation of the C1 theorem at kind Successor and target
"US2", discharging the hypothesis of its multi-valued clause. -/
theorem C1_witness :
    createRelationshipPayload "US2" .Successor =
      { artifactType := defaultArtifactType, field := collectionName .Successor
      , value := .collectionOp "add" ("/" ++ defaultArtifactType ++ "/" ++ "US2") } ∧
    removeRelationshipPayload "US2" .Successor =
      { artifactType := defaultArtifactType, field := collectionName .Successor
      , value := .collectionOp "remove" ("/" ++ defaultArtifactType ++ "/" ++ "US2") } :=
  (C1_relationship_kind_mapping RelationshipType.Successor "US2").2.2.2.2 (by decide)

/-- Counterexample to claim C5 as stated: the removeRelationship tool
handler performs no self-relationship check — called with sourceId =
targetId = "US1" it invokes the client mutation (clientCall is some, a
network call is made) instead of rejecting with a validation error. -/
theorem C5_counterexample :
    (removeRelationshipTool "US1" "US1" RelationshipType.Blocker ClientOutcome.success).clientCall =
      some ("US1", "US1", RelationshipType.Blocker)
  ∧ (removeRelationshipTool "US1" "US1" RelationshipType.Blocker ClientOutcome.success).isError
      = false :=
  ⟨rfl, rfl⟩

/-- Claim C5 (amended): for every relationship kind and identifier x,
createRelationship(x, x, kind) is rejected as a validation error with no
client invocation (hence zero network calls); removeRelationship performs
no such check and proceeds to invoke the client mutation. -/
theorem C5_amended_self_relationship_check (x : String) (t : RelationshipType)
    (c : ClientOutcome) :
    createRelationshipTool x x t c =
      { isError := true
      , message := "Source and target cannot be the same artifact."
      , clientCall := none }
  ∧ (removeRelationshipTool x x t c).clientCall = some (x, x, t) := by
  constructor
  · simp [createRelationshipTool]
  · cases c <;> rfl

/-- Claim C6: every input value outside the eight known relationship kinds
is rejected by the createRelationship and removeRelationship tool schemas
with a validation error before any network call is made (no client
invocation), and never silently no-ops. -/
theorem C6_unknown_kind_rejected (sourceId targetId s : String) (c : ClientOutcome) :
    (parseRelationshipType s = none ↔ s ∉ relationshipTypeStrings)
  ∧ (parseRelationshipType s = none →
      createRelationshipToolRaw sourceId targetId s c =
        { isError := true, message := relationshipTypeErrorMsg, clientCall := none } ∧
      removeRelationshipToolRaw sourceId targetId s c =
        { isError := true, message := relationshipTypeErrorMsg, clientCall := none }) := by
  constructor
  · unfold parseRelationshipType
    split_ifs <;> simp_all [relationshipTypeStrings]
  · intro h
    constructor
    · simp [createRelationshipToolRaw, h]
    · simp [removeRelationshipToolRaw, h]

/-- Concrete instantiation of the C6 theorem at the unknown kind string
"Related", discharging the parse-failure hypothesis. -/
theorem C6_witness :
    createRelationshipToolRaw "US1" "US2" "Related" ClientOutcome.success =
      { isError := true, message := relationshipTypeErrorMsg, clientCall := none } :=
  ((C6_unknown_kind_rejected "US1" "US2" "Related" ClientOutcome.success).2 (by decide)).1

/-- Claim C7: updateStory called with an id and none of the optional
fields set returns a validation-error result, makes no client invocation
(zero network calls), and leaves the story unmodified. -/
theorem C7_empty_update_rejected (id : String) (c : ClientOutcome) :
    updateStoryTool
      { id := id, name := none, description := none, state := none
      , estimate := none, priority := none } c =
      { isError := true
      , message := "No fields provided for update. Story was not modified."
      , clientCall := none } :=
  rfl

/-- Claim C10: the createStory tool includes an optional field in the
backend payload only when its value is truthy — estimate 0 and empty
strings for state, priority and projectId are silently dropped — unlike
updateStory, which includes any field that is not undefined. -/
theorem C10_create_truthiness_filter (a : CreateStoryArgs) (u : UpdateStoryArgs) :
    (a.estimate = some 0 → (buildStoryData a).PlanEstimate = none)
  ∧ (a.state = some "" → (buildStoryData a).ScheduleState = none)
  ∧ (a.priority = some "" → (buildStoryData a).Priority = none)
  ∧ (a.projectId = some "" → (buildStoryData a).Project = none)
  ∧ (u.estimate = some 0 → (buildUpdateData u).PlanEstimate = some 0)
  ∧ (u.state = some "" → (buildUpdateData u).ScheduleState = some "")
  ∧ (u.priority = some "" → (buildUpdateData u).Priority = some "") := by
  refine ⟨?_, ?_, ?_, ?_, ?_, ?_, ?_⟩ <;> intro h <;>
    simp [buildStoryData, buildUpdateData, jsTruthyInt, jsTruthyStr, h]

/-- Concrete instantiation of the C10 theorem: a createStory call with
estimate 0 and empty state, priority and projectId produces a payload with
all four fields omitted, while the same estimate on updateStory is sent
explicitly. -/
theorem C10_witness :
    (buildStoryData
      { name := "S", description := none, projectId := some ""
      , state := some "", estimate := some 0, priority := some "" }).PlanEstimate = none
  ∧ (buildUpdateData
      { id := "US1", name := none, description := none, state := some ""
      , estimate := some 0, priority := none }).PlanEstimate = some 0 :=
  ⟨(C10_create_truthiness_filter
      { name := "S", description := none, projectId := some ""
      , state := some "", estimate := some 0, priority := some "" }
      { id := "US1", name := none, description := none, state := some ""
      , estimate := some 0, priority := none }).1 rfl,
   (C10_create_truthiness_filter
      { name := "S", description := none, projectId := some ""
      , state := some "", estimate := some 0, priority := some "" }
      { id := "US1", name := none, description := none, state := some ""
      , estimate := some 0, priority := none }).2.2.2.2.1 rfl⟩

/-- Exhaustive case analysis of validateCredentials: every run either
succeeds and assigns a workspaceRef, or fails with no assignment and a
populated error string. -/
theorem validateCredentials_cases (ws : String) (env : Env) :
    ((validateCredentials ws env).1.valid = true ∧ ((validateCredentials ws env).2).isSome = true)
  ∨ ((validateCredentials ws env).1.valid = false ∧ (validateCredentials ws env).2 = none
      ∧ ((validateCredentials ws env).1.error).isSome = true) := by
  rcases env with ⟨sub, exq, lq⟩
  rcases sub with e | resp
  · rcases e with ⟨s, msg⟩ | msg | msg
    · by_cases h : s = 401 <;> simp [validateCredentials, classifySubscriptionError, h]
    · simp [validateCredentials, classifySubscriptionError]
    · simp [validateCredentials, classifySubscriptionError]
  · by_cases hst : (resp.status == 200 && resp.hasData) = true
    · rcases exq with msg | ⟨qres, qerrs⟩
      · simp [validateCredentials, hst]
      · rcases qres with _ | ⟨w, rest⟩
        · rcases lq with msg | ⟨lres, lerrs⟩
          · simp [validateCredentials, hst]
          · rcases lres with _ | ⟨first, lrest⟩
            · by_cases he : lerrs = [] <;> simp [validateCredentials, hst, he]
            · by_cases hn : (!isNumericToken ws && ws != "") = true
              · rcases hm : (first :: lrest).find? (nameMatches ws) with _ | m <;>
                  simp [validateCredentials, hst, hn, hm]
              · simp [validateCredentials, hst, hn]
        · simp [validateCredentials, hst]
    · simp [validateCredentials, hst]

/-- Counterexample to claim C2 as stated: with the non-numeric token
"alpha" the exact-name query returns nothing and the case-insensitive
substring search matches the listed workspace "Alphabet"; the claim
requires the substring path to carry a non-fatal advisory, but
validateCredentials returns the matched reference with error = none. -/
theorem C2_counterexample :
    isNumericToken "alpha" = false
  ∧ envSubstring.exactQuery = Except.ok emptyResult
  ∧ [wsAlphabet].find? (nameMatches "alpha") = some wsAlphabet
  ∧ validateCredentials "alpha" envSubstring =
      ({ valid := true, error := none }, some "/workspace/7") := by
  refine ⟨by decide, rfl, by decide, by decide⟩

/-- Claim C2 (amended): for every numeric token whose by-ID query returns
a workspace and every non-numeric token whose exact-name query returns a
workspace, resolve returns that workspace's reference with no advisory;
for every non-numeric token resolved via the case-insensitive substring
match against the listed workspaces' names, resolve returns the first
matched workspace's reference, likewise with no advisory — the code
attaches no advisory on the substring path. -/
theorem C2_amended_resolution_advisory (ws : String) (env : Env)
    (resp : SubscriptionResponse) :
    (∀ w rest errs, env.subscription = .ok resp →
        (resp.status == 200 && resp.hasData) = true →
        env.exactQuery = .ok { Results := w :: rest, Errors := errs } →
        validateCredentials ws env =
          ({ valid := true, error := none }, some ("/workspace/" ++ objectIdStr w.ObjectID)))
  ∧ (∀ errs first rest lerrs m, env.subscription = .ok resp →
        (resp.status == 200 && resp.hasData) = true →
        env.exactQuery = .ok { Results := [], Errors := errs } →
        env.listQuery = .ok { Results := first :: rest, Errors := lerrs } →
        isNumericToken ws = false → (ws != "") = true →
        (first :: rest).find? (nameMatches ws) = some m →
        validateCredentials ws env =
          ({ valid := true, error := none }, some ("/workspace/" ++ objectIdStr m.ObjectID))) := by
  constructor
  · intro w rest errs hs hst hex
    rcases env with ⟨sub, exq, lq⟩
    cases hs; cases hex
    simp [validateCredentials, hst]
  · intro errs first rest lerrs m hs hst hex hlq hnum hne hfind
    rcases env with ⟨sub, exq, lq⟩
    cases hs; cases hex; cases hlq
    simp [validateCredentials, hst, hnum, hne, hfind]

/-- Concrete instantiation of the C2 theorem on the substring path: token
"alpha" against the listing containing "Alphabet" resolves to the matched
workspace's reference with no advisory. -/
theorem C2_witness :
    validateCredentials "alpha" envSubstring =
      ({ valid := true, error := none }
      , some ("/workspace/" ++ objectIdStr wsAlphabet.ObjectID)) :=
  (C2_amended_resolution_advisory "alpha" envSubstring { status := 200, hasData := true }).2
    [] wsAlphabet [] [] wsAlphabet rfl rfl rfl rfl (by decide) (by decide) (by decide)

/-- Counterexample to claim C3 as stated: the only listed workspace lacks
a direct ObjectID and its reference string does not match the
workspace-ID pattern; the claim requires resolution to fail, but
validateCredentials returns a valid outcome carrying the garbage
reference "/workspace/undefined" together with the advisory. -/
theorem C3_counterexample :
    wsNoId.ObjectID = none
  ∧ extractWorkspaceId "/nope/1" = none
  ∧ validateCredentials "NoSuchTeam" envNoId =
      ({ valid := true
       , error := some "Specified workspace \"NoSuchTeam\" not found, using \"Alpha\" (undefined) instead" }
      , some "/workspace/undefined") := by
  refine ⟨rfl, by decide, by decide⟩

/-- Claim C3 (amended): when neither an exact match nor a substring match
succeeds and the accessible-workspace list is non-empty, resolve returns
the reference of the first listed workspace together with a non-fatal
advisory whose text contains that workspace's name; if the first entry
lacks a direct numeric ID the ID is extracted from its canonical reference
string by pattern-match, and if that extraction also fails, resolution
still succeeds: the outcome is valid and carries the reference
"/workspace/undefined" together with the advisory. -/
theorem C3_amended_first_available_fallback (ws : String) (env : Env)
    (resp : SubscriptionResponse) (errs : List String)
    (first : Workspace) (rest : List Workspace) (lerrs : List String) :
    (env.subscription = .ok resp →
     (resp.status == 200 && resp.hasData) = true →
     env.exactQuery = .ok { Results := [], Errors := errs } →
     env.listQuery = .ok { Results := first :: rest, Errors := lerrs } →
     (if !isNumericToken ws && ws != "" then (first :: rest).find? (nameMatches ws)
      else none) = none →
     validateCredentials ws env =
       ({ valid := true
        , error := some ("Specified workspace \"" ++ ws ++ "\" not found, using \"" ++
            displayName first.Name ++ "\" (" ++ renderId (fallbackWorkspaceId first) ++
            ") instead") }
       , some ("/workspace/" ++ renderId (fallbackWorkspaceId first))))
  ∧ (∀ r d, first.ObjectID = none → first.ref = some r → extractWorkspaceId r = some d →
       fallbackWorkspaceId first = some d)
  ∧ (first.ObjectID = none → (∀ r, first.ref = some r → extractWorkspaceId r = none) →
       fallbackWorkspaceId first = none ∧ renderId (fallbackWorkspaceId first) = "undefined") := by
  refine ⟨?_, ?_, ?_⟩
  · intro hs hst hex hlq hmatch
    rcases env with ⟨sub, exq, lq⟩
    cases hs; cases hex; cases hlq
    by_cases hn : (!isNumericToken ws && ws != "") = true
    · rw [if_pos hn] at hmatch
      simp [validateCredentials, hst, hn, hmatch]
    · simp [validateCredentials, hst, hn]
  · intro r d hid href hext
    simp [fallbackWorkspaceId, jsTruthyNat, hid, href, hext]
  · intro hid hext
    rcases hr : first.ref with _ | r
    · simp [fallbackWorkspaceId, jsTruthyNat, hid, hr, renderId]
    · simp [fallbackWorkspaceId, jsTruthyNat, hid, hr, hext r hr, renderId]

/-- Concrete instantiation of the C3 theorem on the spec scenario: token
"NoSuchTeam" with workspaces [Alpha, Beta] and no substring match resolves
to Alpha's reference with an advisory containing "Alpha". -/
theorem C3_witness :
    validateCredentials "NoSuchTeam" envFallback =
      ({ valid := true
       , error := some ("Specified workspace \"" ++ "NoSuchTeam" ++ "\" not found, using \"" ++
           displayName wsAlpha.Name ++ "\" (" ++ renderId (fallbackWorkspaceId wsAlpha) ++
           ") instead") }
      , some ("/workspace/" ++ renderId (fallbackWorkspaceId wsAlpha))) :=
  (C3_amended_first_available_fallback "NoSuchTeam" envFallback
      { status := 200, hasData := true } [] wsAlpha [wsBeta] []).1
    rfl rfl rfl rfl (by decide)

/-- Claim C8: validateCredentials never throws — every path yields a
structured outcome (a failing outcome always carries an error string) —
and failure causes are classified distinctly: a 401 response yields the
authentication-failure outcome, a request with no response yields the
connectivity-failure outcome, and an empty accessible-workspace list
yields the no-accessible-workspaces outcome, with three pairwise distinct
messages. -/
theorem C8_validator_outcomes (ws : String) (env : Env) :
    (∀ msg, env.subscription = .error (.withStatus 401 msg) →
        (validateCredentials ws env).1 =
          { valid := false, error := some "Authentication failed - invalid API key" })
  ∧ (∀ msg, env.subscription = .error (.noResponse msg) →
        (validateCredentials ws env).1 =
          { valid := false
          , error := some "No response from Rally API server - network issue or service unavailable" })
  ∧ (∀ resp, env.subscription = .ok resp → (resp.status == 200 && resp.hasData) = true →
        env.exactQuery = .ok { Results := [], Errors := [] } →
        env.listQuery = .ok { Results := [], Errors := [] } →
        (validateCredentials ws env).1 =
          { valid := false, error := some "No accessible workspaces found with this API key" })
  ∧ ((validateCredentials ws env).1.valid = true ∨ ((validateCredentials ws env).1.error).isSome = true)
  ∧ ("Authentication failed - invalid API key" ≠
        "No response from Rally API server - network issue or service unavailable"
     ∧ "Authentication failed - invalid API key" ≠
        "No accessible workspaces found with this API key"
     ∧ "No response from Rally API server - network issue or service unavailable" ≠
        "No accessible workspaces found with this API key") := by
  refine ⟨?_, ?_, ?_, ?_, by decide, by decide, by decide⟩
  · intro msg hs
    rcases env with ⟨sub, exq, lq⟩
    cases hs
    simp [validateCredentials, classifySubscriptionError]
  · intro msg hs
    rcases env with ⟨sub, exq, lq⟩
    cases hs
    simp [validateCredentials, classifySubscriptionError]
  · intro resp hs hst hex hlq
    rcases env with ⟨sub, exq, lq⟩
    cases hs; cases hex; cases hlq
    simp [validateCredentials, hst]
  · rcases validateCredentials_cases ws env with ⟨h, _⟩ | ⟨_, _, h⟩
    · exact Or.inl h
    · exact Or.inr h

/-- Concrete instantiation of the C8 theorem: a 401 subscription response
yields the authentication-failure outcome. -/
theorem C8_witness :
    (validateCredentials "ws" env401).1 =
      { valid := false, error := some "Authentication failed - invalid API key" } :=
  (C8_validator_outcomes "ws" env401).1 "Request failed with status code 401" rfl

/-- Claim C9: getRelationships builds its snapshot from exactly the seven
fields Predecessors, Successors, Children, Parent, Blocked, Blocker and
Duplicates — Duplicated is never read back; a multi-valued field present
in the raw payload maps to its list of referenced display names (empty
when the name array is missing), Parent maps to its single display name,
and a field absent from the raw payload is omitted from the snapshot
entirely rather than appearing as empty or null. -/
theorem C9_snapshot_fields (a : RawArtifact) :
    (∀ d, buildSnapshot { a with Duplicated := d } = buildSnapshot a)
  ∧ buildSnapshot a =
      { Predecessors := readCollection a.Predecessors
      , Successors := readCollection a.Successors
      , Children := readCollection a.Children
      , Parent := a.Parent
      , Blocked := readCollection a.Blocked
      , Blocker := readCollection a.Blocker
      , Duplicates := readCollection a.Duplicates }
  ∧ readCollection none = none
  ∧ (∀ l, readCollection (some { tagsNameArray := some l }) = some l)
  ∧ readCollection (some { tagsNameArray := none }) = some ([] : List String) :=
  ⟨fun _ => rfl, rfl, rfl, fun _ => rfl, rfl⟩

/-- A cached workspaceRef passes the ensureWorkspace guard untouched, with
no validateCredentials call. -/
theorem ensureWorkspace_cached (ws : String) (env : Env) (r : String) :
    ensureWorkspace ws env { workspaceRef := some r } =
      ({ workspaceRef := some r }, 0) :=
  rfl

/-- Any workspaceRef present after the ensureWorkspace guard was either
already cached or was assigned by the validateCredentials run. -/
theorem ensureWorkspace_ref_origin (ws : String) (env : Env) (st : ClientState)
    (r : String) (h : (ensureWorkspace ws env st).1.workspaceRef = some r) :
    st.workspaceRef = some r ∨ (validateCredentials ws env).2 = some r := by
  rcases st with ⟨wr⟩
  rcases wr with _ | s
  · rcases hv : (validateCredentials ws env).2 with _ | v
    · simp [ensureWorkspace, hv] at h
    · simp [ensureWorkspace, hv] at h
      subst h
      exact Or.inr rfl
  · exact Or.inl h

/-- Claim C4: every story and relationship operation (getStories,
getStory, createStory, updateStory, deleteStory, getRelationships,
createRelationship, removeRelationship) triggers workspace resolution on
demand exactly when no workspace reference is cached; once a reference is
cached, every subsequent operation on the same instance reuses it with
zero further resolution calls; a resolution run assigns a reference only
when its outcome is valid; and any cached reference traces back to such a
successful run. -/
theorem C4_resolution_caching (ws : String) (env : Env) :
    (∀ op st, (runOperation ws env op st).2 =
        (if st.workspaceRef = none then 1 else 0))
  ∧ (∀ ops r, runOps ws env ops { workspaceRef := some r } =
        ({ workspaceRef := some r }, 0))
  ∧ (∀ r, (validateCredentials ws env).2 = some r →
        (validateCredentials ws env).1.valid = true)
  ∧ (∀ ops st r, (runOps ws env ops st).1.workspaceRef = some r →
        st.workspaceRef = some r ∨ (validateCredentials ws env).2 = some r) := by
  refine ⟨?_, ?_, ?_, ?_⟩
  · intro op st
    rcases st with ⟨wr⟩
    rcases wr with _ | r
    · cases op <;>
        (rcases hv : (validateCredentials ws env).2 with _ | v <;>
          simp [runOperation, ensureWorkspace, hv])
    · cases op <;> simp [runOperation, ensureWorkspace]
  · intro ops r
    induction ops with
    | nil => rfl
    | cons op ops ih => cases op <;> simp [runOps, runOperation, ensureWorkspace, ih]
  · intro r h
    rcases validateCredentials_cases ws env with ⟨hv, _⟩ | ⟨_, hn, _⟩
    · exact hv
    · rw [h] at hn; cases hn
  · intro ops
    induction ops with
    | nil => intro st r h; exact Or.inl h
    | cons op ops ih =>
        intro st r h
        simp only [runOps] at h
        rcases ih (runOperation ws env op st).1 r h with h1 | h2
        · cases op <;> exact ensureWorkspace_ref_origin ws env st r h1
        · exact Or.inr h2

/-- Concrete instantiation of the C4 theorem: on a backend with an exact
workspace match, a successful resolution yields a valid outcome, and a
client whose reference is already cached runs two further operations with
zero resolution calls. -/
theorem C4_witness :
    (validateCredentials "42" envExact).1.valid = true
  ∧ runOps "42" envExact [Operation.getStories, Operation.createStory]
      { workspaceRef := some "/workspace/1" } =
      ({ workspaceRef := some "/workspace/1" }, 0) :=
  ⟨(C4_resolution_caching "42" envExact).2.2.1 "/workspace/1" (by decide),
   (C4_resolution_caching "42" envExact).2.1
     [Operation.getStories, Operation.createStory] "/workspace/1"⟩

end Rally
